import Mathlib

/-!
Verification of the proxmox_suite integration (Proxmox VE / Proxmox Backup
Server polling aggregator) against its natural-language specification.

The development shallowly embeds the relevant Python code:

* a JSON value model (`Json`) with Python truthiness, `str.lower`,
  `float(...)` parsing, `dict.get`, and the `a or b` idiom;
* the pure projection helpers of `sensor.py` (`_cpu_to_percent`,
  `_format_uptime_de`, `_tasks_list`, `_task_is_running`, `_task_is_success`,
  `_task_endtime`, `_count_failed_tasks_last_24h`, `_count_running_tasks`);
* the HTTP client wrapper `ProxmoxAPI.get` of `api.py`;
* the per-tick aggregator `ProxmoxCoordinator._async_update_data` of
  `coordinator.py`, with the HTTP layer abstracted as an oracle from
  (path, params) to an API outcome.

Python exceptions that the code catches are modelled as `Option`/defaults;
exceptions that would escape a function are modelled with `Except String`.
Machine floats are modelled as rationals.
-/

/-- JSON values (the payloads the integration manipulates). -/
inductive Json where
  | null : Json
  | bool (b : Bool) : Json
  | num (q : ℚ) : Json
  | str (s : String) : Json
  | arr (xs : List Json) : Json
  | obj (kvs : List (String × Json)) : Json

/-- Python truthiness (`bool(v)`) on JSON values. -/
def Json.truthy : Json → Bool
  | Json.null => false
  | Json.bool b => b
  | Json.num q => decide (q ≠ 0)
  | Json.str s => decide (s ≠ "")
  | Json.arr xs => !xs.isEmpty
  | Json.obj kvs => !kvs.isEmpty

/-- The Python idiom `a or b`: `a` when truthy, else `b`. -/
def pyOr (a b : Json) : Json := if a.truthy then a else b

/-- `dict.get(k)` on a JSON object body: the value at the first binding of
`k`, or `null` (Python `None`) when the key is missing. -/
def dictGet (kvs : List (String × Json)) (k : String) : Json :=
  match kvs.find? (fun kv => kv.1 == k) with
  | some kv => kv.2
  | none => Json.null

/-- Python default whitespace for str.strip(). -/
def pyIsSpace (c : Char) : Bool :=
  c == ' ' || c == '\t' || c == '\n' || c == '\r' || c == '\x0b' || c == '\x0c'

/-- Python str.strip(): drop whitespace at both ends. -/
def pyStrip (s : String) : String :=
  String.mk (((s.data.dropWhile pyIsSpace).reverse.dropWhile pyIsSpace).reverse)

/-- Python str.lower() (ASCII model). -/
def pyLower (s : String) : String := String.mk (s.data.map Char.toLower)

/-- Digit string to natural number. -/
def digitsToNat (cs : List Char) : ℕ :=
  cs.foldl (fun n c => 10 * n + (c.toNat - 48)) 0

/-- All characters are ASCII digits. -/
def allDigits (cs : List Char) : Bool := cs.all Char.isDigit

/-- Split at the first character satisfying `p`: the part before it, and
(when found) the part after it. -/
def splitFirst (p : Char → Bool) : List Char → List Char × Option (List Char)
  | [] => ([], none)
  | c :: rest =>
    if p c then ([], some rest)
    else
      let r := splitFirst p rest
      (c :: r.1, r.2)

/-- Consume an optional leading sign. -/
def parseSign : List Char → ℤ × List Char
  | '+' :: rest => (1, rest)
  | '-' :: rest => (-1, rest)
  | cs => (1, cs)

/-- Unsigned decimal mantissa `digits[.digits]` (at least one digit overall). -/
def parseMantissa (cs : List Char) : Option ℚ :=
  let p := splitFirst (fun c => c == '.') cs
  match p.2 with
  | none =>
    if !p.1.isEmpty && allDigits p.1 then some ((digitsToNat p.1 : ℚ)) else none
  | some fp =>
    if (!p.1.isEmpty || !fp.isEmpty) && allDigits p.1 && allDigits fp then
      some ((digitsToNat p.1 : ℚ) + (digitsToNat fp : ℚ) / (10 : ℚ) ^ fp.length)
    else none

/-- Signed exponent part after the `e`. -/
def parseExp (cs : List Char) : Option ℤ :=
  let s := parseSign cs
  if !s.2.isEmpty && allDigits s.2 then some (s.1 * (digitsToNat s.2 : ℤ)) else none

/-- Python `float(s)` on a string: strip whitespace, optional sign, decimal
mantissa, optional exponent.  `none` models a raised `ValueError`. -/
def pyParseFloat (s : String) : Option ℚ :=
  let cs := (pyStrip s).data
  let sg := parseSign cs
  let sp := splitFirst (fun c => c == 'e' || c == 'E') sg.2
  match parseMantissa sp.1 with
  | none => none
  | some m =>
    match sp.2 with
    | none => some ((sg.1 : ℚ) * m)
    | some ec =>
      match parseExp ec with
      | none => none
      | some e => some ((sg.1 : ℚ) * m * (10 : ℚ) ^ e)

/-- Python `float(v)` on a JSON value; `none` models a raised exception
(`TypeError`/`ValueError`). -/
def pyFloat : Json → Option ℚ
  | Json.bool b => some (if b then 1 else 0)
  | Json.num q => some q
  | Json.str s => pyParseFloat s
  | _ => none

/-- Round half to even to an integer (the tie rule of Python `round`). -/
def roundHalfEven (q : ℚ) : ℤ :=
  let f := Int.floor q
  let r := q - (f : ℚ)
  if r < 1 / 2 then f
  else if 1 / 2 < r then f + 1
  else if f % 2 = 0 then f else f + 1

/-- Python `round(q, d)`. -/
def pyRound (q : ℚ) (d : ℕ) : ℚ :=
  (roundHalfEven (q * (10 : ℚ) ^ d) : ℚ) / (10 : ℚ) ^ d

/-- Python `int(q)`: truncation toward zero. -/
def pyTrunc (q : ℚ) : ℤ := if q < 0 then Int.ceil q else Int.floor q

/-! ## sensor.py projection helpers -/

/-- `_cpu_to_percent`: `None` for missing/non-numeric input; a value at most
1.0 is treated as a 0..1 fraction and scaled by 100, larger values are taken
as percentages already; rounded to one decimal. -/
def cpuToPercent (v : Json) : Option ℚ :=
  match v with
  | Json.null => none
  | _ =>
    match pyFloat v with
    | none => none
    | some f => if f ≤ 1 then some (pyRound (f * 100) 1) else some (pyRound f 1)

/-- `_format_uptime_de`: German human-readable uptime. -/
def formatUptimeDe (v : Json) : Option String :=
  match v with
  | Json.null => none
  | _ =>
    match pyFloat v with
    | none => none
    | some q =>
      let z := pyTrunc q
      let s : ℕ := if z < 0 then 0 else z.toNat
      let days := s / 86400
      let hours := s % 86400 / 3600
      let minutes := s % 86400 % 3600 / 60
      let parts : List String :=
        (if days ≠ 0 then [if days = 1 then "1 Tag" else toString days ++ " Tage"] else [])
          ++ (if hours ≠ 0 then [toString hours ++ " Std"] else [])
      let parts := parts ++ (if minutes ≠ 0 ∨ parts = [] then [toString minutes ++ " Min"] else [])
      some (String.intercalate " " parts)

/-- `_tasks_list`: keep the dict entries of a list; empty for non-lists. -/
def tasksList : Json → List (List (String × Json))
  | Json.arr xs =>
    xs.filterMap (fun t =>
      match t with
      | Json.obj kvs => some kvs
      | _ => none)
  | _ => []

/-- The expression `t.get("status") or t.get("state") or ""`. -/
def statusStateRaw (t : List (String × Json)) : Json :=
  pyOr (dictGet t "status") (pyOr (dictGet t "state") (Json.str ""))

/-- Python `.lower()`: defined on strings, `AttributeError` otherwise. -/
def pyLowerStr : Json → Except String String
  | Json.str s => Except.ok (pyLower s)
  | _ => Except.error "AttributeError"

/-- Is the value Python `None` or the empty string (the test
`endtime is None or endtime == ""`)? -/
def isNoneOrEmptyStr : Json → Bool
  | Json.null => true
  | Json.str s => s == ""
  | _ => false

/-- `_task_is_running`. -/
def taskIsRunning (t : List (String × Json)) : Except String Bool := do
  let st ← pyLowerStr (statusStateRaw t)
  if st = "running" ∨ st = "active" then pure true
  else
    let e := dictGet t "endtime"
    if isNoneOrEmptyStr e then pure true
    else
      match pyFloat e with
      | some _ => pure false
      | none => pure true

/-- `_task_is_success`. -/
def taskIsSuccess (t : List (String × Json)) : Except String Bool := do
  let st ← pyLowerStr (statusStateRaw t)
  pure (decide (st = "ok" ∨ st = "success"))

/-- `_task_endtime`: the `endtime` field as a float, `none` when absent or
unparseable. -/
def taskEndtime (t : List (String × Json)) : Option ℚ :=
  match dictGet t "endtime" with
  | Json.null => none
  | e => pyFloat e

/-- One iteration of the `_count_failed_tasks_last_24h` loop: does task `t`
contribute to the failed count, given the window cutoff? -/
def taskFailedOne (cutoff : ℚ) (t : List (String × Json)) : Except String Bool :=
  match taskEndtime t with
  | none => Except.ok false
  | some e =>
    if e < cutoff then Except.ok false
    else do
      let running ← taskIsRunning t
      if running then pure false
      else do
        let succ ← taskIsSuccess t
        if succ then pure false
        else do
          let ex ← pyLowerStr (pyOr (dictGet t "exitstatus") (Json.str ""))
          if ex = "ok" ∨ ex = "success" then pure false
          else pure true

/-- Accumulate `taskFailedOne` over the task dicts. -/
def countFailedAux (cutoff : ℚ) : List (List (String × Json)) → Except String ℕ
  | [] => Except.ok 0
  | t :: rest => do
    let b ← taskFailedOne cutoff t
    let n ← countFailedAux cutoff rest
    pure (if b then n + 1 else n)

/-- `_count_failed_tasks_last_24h`, with the wall-clock time `now` made an
explicit parameter. -/
def countFailedTasksLast24h (now : ℚ) (tasks : Json) : Except String ℕ :=
  countFailedAux (now - 24 * 3600) (tasksList tasks)

/-- Accumulate `taskIsRunning` over the task dicts. -/
def countRunningAux : List (List (String × Json)) → Except String ℕ
  | [] => Except.ok 0
  | t :: rest => do
    let b ← taskIsRunning t
    let n ← countRunningAux rest
    pure (if b then n + 1 else n)

/-- `_count_running_tasks`. -/
def countRunningTasks (tasks : Json) : Except String ℕ :=
  countRunningAux (tasksList tasks)

/-! ## api.py: the HTTP client wrapper -/

/-- An HTTP response as seen after the transport layer: status code and the
JSON parse of the body (`none` when the body is not valid JSON). -/
structure HttpResponse where
  status : ℕ
  body : Option Json

/-- Outcome of one `ProxmoxAPI.get` call: a returned value, a raised
`ProxmoxApiError`, or an exception that escapes the wrapper uncaught. -/
inductive ApiResult where
  | ok (v : Json) : ApiResult
  | apiError (msg : String) : ApiResult
  | uncaught (msg : String) : ApiResult

/-- `ProxmoxAPI.get`: a transport fault (`aiohttp.ClientError`) becomes a
`ProxmoxApiError`; status at least 400 becomes a `ProxmoxApiError`; otherwise
the body is parsed as JSON regardless of content type and
`payload.get("data")` is returned -- which raises an uncaught
`AttributeError` when the payload is not a JSON object, and an uncaught
`JSONDecodeError` was already raised when the body is not valid JSON. -/
def apiGet (r : Except String HttpResponse) : ApiResult :=
  match r with
  | Except.error msg => ApiResult.apiError msg
  | Except.ok resp =>
    if 400 ≤ resp.status then ApiResult.apiError ("HTTP " ++ toString resp.status)
    else
      match resp.body with
      | none => ApiResult.uncaught "JSONDecodeError"
      | some (Json.obj kvs) => ApiResult.ok (dictGet kvs "data")
      | some _ => ApiResult.uncaught "AttributeError"

/-! ## coordinator.py: the polling aggregator

The HTTP layer is abstracted as an oracle from (path, query parameters) to
an `ApiResult`; one invocation of the tick function consults the oracle in
the same order as the sequential awaits of `_async_update_data`.  All tick
failures (both explicit `UpdateFailed` raises and exceptions re-wrapped by
the final handler) are modelled as `Except.error` carrying the message. -/

/-- The per-tick view of the HTTP client: path and params to outcome. -/
def Fetcher := String → List (String × Json) → ApiResult

/-- `_safe_get`: a `ProxmoxApiError` is swallowed and replaced by the
default; an uncaught exception propagates. -/
def safeGet (g : Fetcher) (path : String) (params : List (String × Json))
    (dflt : Json) : Except String Json :=
  match g path params with
  | ApiResult.ok v => Except.ok v
  | ApiResult.apiError _ => Except.ok dflt
  | ApiResult.uncaught msg => Except.error msg

/-- The node-name adoption expression
`(nodes[0].get("node") if nodes else "") or ""` of the PVE branch.
A truthy non-string node value would be interpolated into URLs via str();
no claim reaches that branch and it is modelled as a tick failure. -/
def resolveNodeName (nodes : Json) : Except String String :=
  if nodes.truthy then
    match nodes with
    | Json.arr (Json.obj kvs :: _) =>
      match pyOr (dictGet kvs "node") (Json.str "") with
      | Json.str s => Except.ok s
      | _ => Except.error "TypeError"
    | Json.arr (_ :: _) => Except.error "AttributeError"
    | _ => Except.error "TypeError"
  else Except.ok ""

/-- The comprehension `sum(1 for vm in vms if vm.get("status") == "running")`;
a non-dict element raises an uncaught `AttributeError`. -/
def countStatusRunning : List Json → Except String ℕ
  | [] => Except.ok 0
  | Json.obj kvs :: rest => do
    let n ← countStatusRunning rest
    let hit :=
      match dictGet kvs "status" with
      | Json.str s => s == "running"
      | _ => false
    pure (if hit then n + 1 else n)
  | _ :: _ => Except.error "AttributeError"

/-- Total and running counts of a VM/container list; `(0, 0)` for a
non-list value (the `isinstance(vms, list)` guard). -/
def listCounts (v : Json) : Except String (ℕ × ℕ) :=
  match v with
  | Json.arr xs => do
    let r ← countStatusRunning xs
    pure (xs.length, r)
  | _ => Except.ok (0, 0)

/-- A stripped nonempty string value, as accepted by
`_extract_hostname_from_status`. -/
def strippedNonempty (v : Json) : Option String :=
  match v with
  | Json.str s => if pyStrip s = "" then none else some (pyStrip s)
  | _ => none

/-- First key of `keys` whose value in `kvs` is a nonblank string. -/
def firstHit (kvs : List (String × Json)) : List String → Option String
  | [] => none
  | k :: rest =>
    match strippedNonempty (dictGet kvs k) with
    | some s => some s
    | none => firstHit kvs rest

/-- `_extract_hostname_from_status`. -/
def extractHostnameFromStatus (status : Json) : Option String :=
  match status with
  | Json.obj kvs =>
    match firstHit kvs ["hostname", "nodename", "node", "name"] with
    | some s => some s
    | none =>
      match dictGet kvs "node" with
      | Json.obj nkvs => firstHit nkvs ["hostname", "nodename", "name"]
      | _ => none
  | _ => none

/-- `_set_display_name_no_ip` for the PBS backend. -/
def displayNamePBS (hostname : Option String) : String :=
  let hn := pyStrip (hostname.getD "")
  if hn = "" then "PBS" else hn

/-- `_set_display_name_no_ip` for the PVE backend, called with
`pve_node=self.node`. -/
def displayNamePVE (pveNode selfNode : String) : String :=
  pyStrip (if pveNode ≠ "" then pveNode else if selfNode ≠ "" then selfNode else "PVE")

/-- The PVE snapshot assembly and best-effort fetches once the node name is
known. -/
def pveBody (node : String) (g : Fetcher) (version : Json) : Except String Json := do
  let status ← safeGet g ("/nodes/" ++ node ++ "/status") [] (Json.obj [])
  let vms ← safeGet g ("/nodes/" ++ node ++ "/qemu") [] (Json.arr [])
  let vmCounts ← listCounts vms
  let lxcs ← safeGet g ("/nodes/" ++ node ++ "/lxc") [] (Json.arr [])
  let lxcCounts ← listCounts lxcs
  let tasksRunning ← safeGet g ("/nodes/" ++ node ++ "/tasks")
    [("running", Json.str "true"), ("limit", Json.num 200)] (Json.arr [])
  pure (Json.obj
    [("backend", Json.str "pve"),
     ("node", Json.str node),
     ("display_name", Json.str (displayNamePVE node node)),
     ("version", version),
     ("status", pyOr status (Json.obj [])),
     ("counts", Json.obj
       [("vms_total", Json.num vmCounts.1),
        ("vms_running", Json.num vmCounts.2),
        ("lxcs_total", Json.num lxcCounts.1),
        ("lxcs_running", Json.num lxcCounts.2)]),
     ("tasks_running", pyOr tasksRunning (Json.arr []))])

/-- One PVE poll tick: takes the stored `self.node` (empty when unknown) and
returns the possibly-adopted node name alongside the tick outcome. -/
def pveTick (node0 : String) (g : Fetcher) : String × Except String Json :=
  match safeGet g "/version" [] Json.null with
  | Except.error e => (node0, Except.error e)
  | Except.ok version =>
    let nodeRes : Except String String :=
      if node0 = "" then
        match safeGet g "/nodes" [] (Json.arr []) with
        | Except.error e => Except.error e
        | Except.ok nodes => resolveNodeName nodes
      else Except.ok node0
    match nodeRes with
    | Except.error e => (node0, Except.error e)
    | Except.ok node =>
      if node = "" then (node, Except.error "Could not determine PVE node name")
      else (node, pveBody node g version)

/-- One PBS poll tick. -/
def pbsTick (node0 : String) (g : Fetcher) : Except String Json := do
  let version ← safeGet g "/version" [] Json.null
  let node := if node0 = "" then "localhost" else node0
  let status ← safeGet g ("/nodes/" ++ node ++ "/status") [] (Json.obj [])
  let datastores ← safeGet g "/status/datastore-usage" [] (Json.arr [])
  let tasksAll ← safeGet g ("/nodes/" ++ node ++ "/tasks")
    [("limit", Json.num 200)] (Json.arr [])
  let tasksRunning ← safeGet g ("/nodes/" ++ node ++ "/tasks")
    [("running", Json.str "true"), ("limit", Json.num 200)] (Json.arr [])
  if !status.truthy && !datastores.truthy && !tasksAll.truthy && !tasksRunning.truthy then
    Except.error "PBS: all API calls failed (no data returned)"
  else
    pure (Json.obj
      [("backend", Json.str "pbs"),
       ("node", Json.str node),
       ("display_name", Json.str (displayNamePBS (extractHostnameFromStatus status))),
       ("version", version),
       ("status", pyOr status (Json.obj [])),
       ("datastores", pyOr datastores (Json.arr [])),
       ("tasks", pyOr tasksAll (Json.arr [])),
       ("tasks_running", pyOr tasksRunning (Json.arr []))])

/-- The coordinator state the update callback can read and write: the node
name and the currently published snapshot (the host framework retains the
previous snapshot when a refresh fails). -/
structure CoordState where
  node : String
  data : Option Json

/-- One scheduler tick of a PVE coordinator. -/
def stepPVE (st : CoordState) (g : Fetcher) : CoordState :=
  match pveTick st.node g with
  | (n, Except.ok snap) => ⟨n, some snap⟩
  | (n, Except.error _) => ⟨n, st.data⟩

/-- One scheduler tick of a PBS coordinator. -/
def stepPBS (st : CoordState) (g : Fetcher) : CoordState :=
  match pbsTick st.node g with
  | Except.ok snap => ⟨st.node, some snap⟩
  | Except.error _ => ⟨st.node, st.data⟩

/-- Field access on a snapshot dictionary. -/
def snapField (snap : Json) (k : String) : Json :=
  match snap with
  | Json.obj kvs => dictGet kvs k
  | _ => Json.null

/-! ## Helper lemmas -/

theorem exceptBind_ok {α β ε : Type} (a : α) (f : α → Except ε β) :
    (Except.ok a >>= f : Except ε β) = f a := rfl

theorem exceptBind_err {α β ε : Type} (e : ε) (f : α → Except ε β) :
    ((Except.error e : Except ε α) >>= f : Except ε β) = Except.error e := rfl

/-- The clamped-seconds-to-string core of `_format_uptime_de`. -/
def uptimeCore (s : ℕ) : String :=
  let days := s / 86400
  let hours := s % 86400 / 3600
  let minutes := s % 86400 % 3600 / 60
  let parts : List String :=
    (if days ≠ 0 then [if days = 1 then "1 Tag" else toString days ++ " Tage"] else [])
      ++ (if hours ≠ 0 then [toString hours ++ " Std"] else [])
  let parts := parts ++ (if minutes ≠ 0 ∨ parts = [] then [toString minutes ++ " Min"] else [])
  String.intercalate " " parts

theorem formatUptimeDe_num (q : ℚ) :
    formatUptimeDe (Json.num q)
      = some (uptimeCore (if pyTrunc q < 0 then 0 else (pyTrunc q).toNat)) := rfl

theorem pyTrunc_natCast (n : ℕ) : pyTrunc ((n : ℚ)) = (n : ℤ) := by
  unfold pyTrunc
  rw [if_neg (not_lt.mpr (by positivity))]
  exact Int.floor_natCast n

/-- The uptime format stated as in the specification: the day and hour
components are omitted when zero, the minute component is shown whenever it
is nonzero or no larger component is present. -/
def uptimeClaimFormat (n : ℕ) : String :=
  let days := n / 86400
  let hours := n % 86400 / 3600
  let minutes := n % 86400 % 3600 / 60
  let dayPart : List String :=
    if days = 0 then [] else [if days = 1 then "1 Tag" else toString days ++ " Tage"]
  let hourPart : List String := if hours = 0 then [] else [toString hours ++ " Std"]
  let minPart : List String :=
    if minutes ≠ 0 ∨ (days = 0 ∧ hours = 0) then [toString minutes ++ " Min"] else []
  String.intercalate " " (dayPart ++ hourPart ++ minPart)

theorem uptimeCore_eq_claimFormat (s : ℕ) : uptimeCore s = uptimeClaimFormat s := by
  unfold uptimeCore uptimeClaimFormat
  by_cases hd : s / 86400 = 0 <;> by_cases hh : s % 86400 / 3600 = 0 <;>
    by_cases hm : s % 86400 % 3600 / 60 = 0 <;> simp [hd, hh, hm]

/-! ## Claim theorems -/

/-- C7: humanUptime formats uptime as German days/hours/minutes, omitting
zero-valued leading components except minutes (always shown when no larger
component is present); negative input is clamped to zero; humanUptime(0) is
"0 Min" and humanUptime(90061) is "1 Tag 1 Std 1 Min". -/
theorem claim_C7 :
    (∀ q : ℚ, q ≤ 0 → formatUptimeDe (Json.num q) = some "0 Min") ∧
    formatUptimeDe (Json.num 0) = some "0 Min" ∧
    formatUptimeDe (Json.num 90061) = some "1 Tag 1 Std 1 Min" ∧
    (∀ n : ℕ, formatUptimeDe (Json.num (n : ℚ)) = some (uptimeClaimFormat n)) := by
  have hcast : ∀ n : ℕ, (if pyTrunc ((n : ℚ)) < 0 then 0 else (pyTrunc ((n : ℚ))).toNat) = n := by
    intro n
    rw [pyTrunc_natCast, if_neg (not_lt.mpr (Int.natCast_nonneg n))]
    exact Int.toNat_natCast n
  refine ⟨?_, ?_, ?_, ?_⟩
  · intro q hq
    have hz : (if pyTrunc q < 0 then 0 else (pyTrunc q).toNat) = 0 := by
      unfold pyTrunc
      rcases lt_or_eq_of_le hq with h | h
      · rw [if_pos h]
        by_cases hc : Int.ceil q < 0
        · rw [if_pos hc]
        · have hle : Int.ceil q ≤ 0 := Int.ceil_le.mpr (by exact_mod_cast hq)
          have h0 : Int.ceil q = 0 := le_antisymm hle (not_lt.mp hc)
          rw [if_neg hc, h0]
          rfl
      · subst h
        simp
    rw [formatUptimeDe_num, hz]
    rfl
  · rfl
  · rfl
  · intro n
    rw [formatUptimeDe_num, hcast n, uptimeCore_eq_claimFormat]

theorem claim_C7_witness : formatUptimeDe (Json.num (-5)) = some "0 Min" :=
  claim_C7.1 (-5) (by norm_num)

/-- C8: cpuFraction scales a value at most 1.0 by 100 and rounds to one
decimal, passes a larger value through the same rounding, and is absent on
non-numeric input. -/
theorem claim_C8 :
    (∀ q : ℚ, q ≤ 1 → cpuToPercent (Json.num q) = some (pyRound (q * 100) 1)) ∧
    (∀ q : ℚ, 1 < q → cpuToPercent (Json.num q) = some (pyRound q 1)) ∧
    (∀ v : Json, pyFloat v = none → cpuToPercent v = none) := by
  refine ⟨?_, ?_, ?_⟩
  · intro q h
    show (if q ≤ 1 then some (pyRound (q * 100) 1) else some (pyRound q 1))
      = some (pyRound (q * 100) 1)
    rw [if_pos h]
  · intro q h
    show (if q ≤ 1 then some (pyRound (q * 100) 1) else some (pyRound q 1))
      = some (pyRound q 1)
    rw [if_neg (not_le.mpr h)]
  · intro v h
    cases v <;> first
      | rfl
      | (unfold cpuToPercent; rw [h])

theorem claim_C8_witness : cpuToPercent (Json.num (1 / 2)) = some (pyRound ((1 / 2) * 100) 1) :=
  claim_C8.1 (1 / 2) (by norm_num)

/-- C3 counterexample: a successful (status 200) response whose body is
valid JSON but not an object -- here the empty JSON array -- makes the
client wrapper raise an uncaught AttributeError instead of returning an
absent result, contradicting the claim that every successful response
lacking the data envelope yields an absent/empty result. -/
theorem claim_C3_cex :
    apiGet (Except.ok ⟨200, some (Json.arr [])⟩) = ApiResult.uncaught "AttributeError" ∧
    apiGet (Except.ok ⟨200, some (Json.arr [])⟩) ≠ ApiResult.ok Json.null := by
  refine ⟨rfl, ?_⟩
  intro h
  exact ApiResult.noConfusion h

/-- C3 (amended): for every successful response (status below 400) whose
body parses to a JSON object, get returns the value under the data key of
the envelope, and when the data key is absent it returns the absent value
(Python None) rather than failing.  Bodies that are not JSON objects raise
an uncaught error instead (see the counterexample). -/
theorem claim_C3 :
    (∀ (st : ℕ) (kvs : List (String × Json)), st < 400 →
      apiGet (Except.ok ⟨st, some (Json.obj kvs)⟩) = ApiResult.ok (dictGet kvs "data")) ∧
    (∀ (st : ℕ) (kvs : List (String × Json)), st < 400 →
      kvs.find? (fun kv => kv.1 == "data") = none →
      apiGet (Except.ok ⟨st, some (Json.obj kvs)⟩) = ApiResult.ok Json.null) := by
  have hred : ∀ (st : ℕ) (kvs : List (String × Json)),
      apiGet (Except.ok ⟨st, some (Json.obj kvs)⟩)
        = if 400 ≤ st then ApiResult.apiError ("HTTP " ++ toString st)
          else ApiResult.ok (dictGet kvs "data") := fun _ _ => rfl
  constructor
  · intro st kvs h
    rw [hred, if_neg (not_le.mpr h)]
  · intro st kvs h hfind
    rw [hred, if_neg (not_le.mpr h)]
    unfold dictGet
    rw [hfind]

theorem claim_C3_witness :
    apiGet (Except.ok ⟨200, some (Json.obj [("foo", Json.num 1)])⟩) = ApiResult.ok Json.null :=
  claim_C3.2 200 [("foo", Json.num 1)] (by norm_num) rfl

/-! ## Task classification: spec-side predicates and equivalences -/

/-- The running classification as worded in the specification: the resolved
status/state string is (case-insensitively) running or active, or the
endtime field is absent, empty, or not parseable as a number. -/
def runningClaimPred (t : List (String × Json)) : Bool :=
  (match statusStateRaw t with
   | Json.str s => pyLower s == "running" || pyLower s == "active"
   | _ => false)
  || (pyFloat (dictGet t "endtime")).isNone

theorem runningEndtimeBranch (e : Json) :
    (if isNoneOrEmptyStr e then (pure true : Except String Bool)
     else
       match pyFloat e with
       | some _ => pure false
       | none => pure true)
      = Except.ok (pyFloat e).isNone := by
  cases e with
  | str s =>
    by_cases hs : s = ""
    · subst hs; rfl
    · have hne : isNoneOrEmptyStr (Json.str s) = false := by
        simp [isNoneOrEmptyStr, hs]
      rw [hne]
      show (match pyFloat (Json.str s) with
            | some _ => (pure false : Except String Bool)
            | none => pure true) = Except.ok (pyFloat (Json.str s)).isNone
      cases hp : pyFloat (Json.str s) <;> rfl
  | null => rfl
  | bool b => rfl
  | num q => rfl
  | arr xs => rfl
  | obj kvs => rfl

theorem taskIsRunning_eq (t : List (String × Json)) (s0 : String)
    (h : statusStateRaw t = Json.str s0) :
    taskIsRunning t = Except.ok (runningClaimPred t) := by
  unfold taskIsRunning runningClaimPred
  rw [h]
  show (Except.ok (pyLower s0) >>= fun st =>
    if st = "running" ∨ st = "active" then pure true
    else
      if isNoneOrEmptyStr (dictGet t "endtime") then pure true
      else
        match pyFloat (dictGet t "endtime") with
        | some _ => pure false
        | none => pure true)
      = Except.ok ((pyLower s0 == "running" || pyLower s0 == "active")
          || (pyFloat (dictGet t "endtime")).isNone)
  rw [exceptBind_ok]
  by_cases hst : pyLower s0 = "running" ∨ pyLower s0 = "active"
  · rw [if_pos hst]
    have hb : (pyLower s0 == "running" || pyLower s0 == "active") = true := by
      rcases hst with h1 | h1 <;> simp [h1]
    rw [hb, Bool.true_or]
    rfl
  · rw [if_neg hst]
    rw [not_or] at hst
    have hb : (pyLower s0 == "running" || pyLower s0 == "active") = false := by
      simp [hst.1, hst.2]
    rw [hb, Bool.false_or]
    exact runningEndtimeBranch (dictGet t "endtime")

theorem taskIsSuccess_eq (t : List (String × Json)) (s0 : String)
    (h : statusStateRaw t = Json.str s0) :
    taskIsSuccess t = Except.ok (decide (pyLower s0 = "ok" ∨ pyLower s0 = "success")) := by
  unfold taskIsSuccess
  rw [h]
  rfl

/-- The resolved string value is (case-insensitively) neither "ok" nor
"success". -/
def notOkSuccessStr (v : Json) : Bool :=
  match v with
  | Json.str s => !(pyLower s == "ok" || pyLower s == "success")
  | _ => true

/-- The failed-task criterion exactly as the claim words it: not
"successful" per the status/state predicate, exitstatus not ok/success, and
endtime within the trailing 24-hour window from now.  (This omits the
not-running requirement the code enforces.) -/
def failedClaimPred (now : ℚ) (t : List (String × Json)) : Bool :=
  notOkSuccessStr (statusStateRaw t)
    && notOkSuccessStr (pyOr (dictGet t "exitstatus") (Json.str ""))
    && (match pyFloat (dictGet t "endtime") with
        | some e => decide (now - 86400 ≤ e)
        | none => false)

/-- The amended failed-task criterion: additionally not classified as
running, with a present and parseable endtime at least now - 24h. -/
def failedAmendedPred (now : ℚ) (t : List (String × Json)) : Bool :=
  (match taskEndtime t with
   | some e => decide (now - 24 * 3600 ≤ e)
   | none => false)
    && !(runningClaimPred t)
    && notOkSuccessStr (statusStateRaw t)
    && notOkSuccessStr (pyOr (dictGet t "exitstatus") (Json.str ""))

theorem notOkSuccessStr_of_ne (s : String) (h1 : pyLower s ≠ "ok")
    (h2 : pyLower s ≠ "success") : notOkSuccessStr (Json.str s) = true := by
  simp [notOkSuccessStr, h1, h2]

theorem notOkSuccessStr_of_eq (s : String)
    (h : pyLower s = "ok" ∨ pyLower s = "success") :
    notOkSuccessStr (Json.str s) = false := by
  rcases h with h | h <;> simp [notOkSuccessStr, h]

theorem taskFailedOne_eq (now : ℚ) (t : List (String × Json)) (s0 s1 : String)
    (h : statusStateRaw t = Json.str s0)
    (hx : pyOr (dictGet t "exitstatus") (Json.str "") = Json.str s1) :
    taskFailedOne (now - 24 * 3600) t = Except.ok (failedAmendedPred now t) := by
  unfold taskFailedOne failedAmendedPred
  rw [h, hx]
  cases hend : taskEndtime t with
  | none => rfl
  | some e =>
    show (if e < now - 24 * 3600 then Except.ok false
        else taskIsRunning t >>= fun running =>
          if running = true then pure false
          else taskIsSuccess t >>= fun succ =>
            if succ = true then pure false
            else pyLowerStr (Json.str s1) >>= fun ex =>
              if ex = "ok" ∨ ex = "success" then pure false else pure true)
      = Except.ok (decide (now - 24 * 3600 ≤ e) && !runningClaimPred t
          && notOkSuccessStr (Json.str s0) && notOkSuccessStr (Json.str s1))
    by_cases hlt : e < now - 24 * 3600
    · rw [if_pos hlt, decide_eq_false (not_le.mpr hlt)]
      rfl
    · rw [if_neg hlt, decide_eq_true (not_lt.mp hlt)]
      rw [taskIsRunning_eq t s0 h, exceptBind_ok]
      by_cases hr : runningClaimPred t = true
      · rw [if_pos hr, hr]
        rfl
      · have hr2 : runningClaimPred t = false := by
          revert hr
          cases runningClaimPred t <;> simp
        rw [if_neg hr, taskIsSuccess_eq t s0 h, exceptBind_ok, hr2]
        by_cases hsucc : pyLower s0 = "ok" ∨ pyLower s0 = "success"
        · rw [if_pos (decide_eq_true hsucc), notOkSuccessStr_of_eq s0 hsucc]
          rfl
        · rw [if_neg (fun hc => hsucc (of_decide_eq_true hc))]
          rw [not_or] at hsucc
          rw [show pyLowerStr (Json.str s1) = Except.ok (pyLower s1) from rfl, exceptBind_ok]
          by_cases hex : pyLower s1 = "ok" ∨ pyLower s1 = "success"
          · rw [if_pos hex, notOkSuccessStr_of_eq s1 hex,
              notOkSuccessStr_of_ne s0 hsucc.1 hsucc.2]
            rfl
          · rw [if_neg hex]
            rw [not_or] at hex
            rw [notOkSuccessStr_of_ne s0 hsucc.1 hsucc.2,
              notOkSuccessStr_of_ne s1 hex.1 hex.2]
            rfl

/-- Task dicts whose resolved status/state and exitstatus expressions are
strings (always the case for well-formed Proxmox task records; a truthy
non-string in those fields would raise inside the sensor getters). -/
def wellFormedTask (t : List (String × Json)) : Prop :=
  (∃ s0, statusStateRaw t = Json.str s0) ∧
    (∃ s1, pyOr (dictGet t "exitstatus") (Json.str "") = Json.str s1)

theorem countRunningAux_eq (l : List (List (String × Json)))
    (h : ∀ t ∈ l, ∃ s0, statusStateRaw t = Json.str s0) :
    countRunningAux l = Except.ok (l.countP runningClaimPred) := by
  induction l with
  | nil => rfl
  | cons t rest ih =>
    obtain ⟨s0, hs⟩ := h t (List.mem_cons_self t rest)
    unfold countRunningAux
    rw [taskIsRunning_eq t s0 hs, exceptBind_ok,
      ih (fun u hu => h u (List.mem_cons_of_mem t hu)), exceptBind_ok,
      List.countP_cons]
    by_cases hr : runningClaimPred t = true <;> simp [hr] <;> rfl

theorem countFailedAux_eq (now : ℚ) (l : List (List (String × Json)))
    (h : ∀ t ∈ l, wellFormedTask t) :
    countFailedAux (now - 24 * 3600) l = Except.ok (l.countP (failedAmendedPred now)) := by
  induction l with
  | nil => rfl
  | cons t rest ih =>
    obtain ⟨⟨s0, hs⟩, ⟨s1, hx⟩⟩ := h t (List.mem_cons_self t rest)
    unfold countFailedAux
    rw [taskFailedOne_eq now t s0 s1 hs hx, exceptBind_ok,
      ih (fun u hu => h u (List.mem_cons_of_mem t hu)), exceptBind_ok,
      List.countP_cons]
    by_cases hf : failedAmendedPred now t = true <;> simp [hf] <;> rfl

/-- C5: a task is classified as running exactly when its resolved
status/state string is (case-insensitively) running or active, or its
endtime is absent, empty, or not parseable as a number; countRunningTasks
counts exactly the records satisfying this predicate, and yields 0 on a
non-sequence input. -/
theorem claim_C5 :
    (∀ t : List (String × Json), (∃ s0, statusStateRaw t = Json.str s0) →
      taskIsRunning t = Except.ok (runningClaimPred t)) ∧
    (∀ tasks : Json, (∀ t ∈ tasksList tasks, ∃ s0, statusStateRaw t = Json.str s0) →
      countRunningTasks tasks = Except.ok ((tasksList tasks).countP runningClaimPred)) ∧
    (∀ v : Json, (∀ xs, v ≠ Json.arr xs) → countRunningTasks v = Except.ok 0) := by
  refine ⟨?_, ?_, ?_⟩
  · intro t ht
    obtain ⟨s0, hs⟩ := ht
    exact taskIsRunning_eq t s0 hs
  · intro tasks h
    exact countRunningAux_eq (tasksList tasks) h
  · intro v hv
    cases v with
    | arr xs => exact absurd rfl (hv xs)
    | null => rfl
    | bool b => rfl
    | num q => rfl
    | str s => rfl
    | obj kvs => rfl

theorem claim_C5_witness :
    countRunningTasks (Json.arr [Json.obj [("status", Json.str "running")]]) = Except.ok 1 := by
  have h := claim_C5.2.1 (Json.arr [Json.obj [("status", Json.str "running")]])
    (by
      intro t ht
      simp only [tasksList, List.filterMap] at ht
      simp at ht
      subst ht
      exact ⟨"running", rfl⟩)
  rw [h]
  rfl

/-- The task dict of the C4 counterexample: status running, a parseable
endtime one hour before now = 1000000, exitstatus error. -/
def cexTaskC4 : List (String × Json) :=
  [("status", Json.str "running"), ("endtime", Json.num 996400),
   ("exitstatus", Json.str "error")]

/-- The C4 counterexample task list. -/
def cexTasksC4 : Json := Json.arr [Json.obj cexTaskC4]

/-- C4 counterexample: a task with status "running", a parseable endtime
inside the 24-hour window, and exitstatus "error" satisfies every criterion
the claim lists (not successful per status/state, exitstatus not
ok/success, endtime in the window), yet the code counts zero such tasks,
because the loop additionally skips tasks classified as running -- a
condition the claim omits. -/
theorem claim_C4_cex :
    countFailedTasksLast24h 1000000 cexTasksC4
        ≠ Except.ok ((tasksList cexTasksC4).countP (failedClaimPred 1000000)) ∧
    countFailedTasksLast24h 1000000 cexTasksC4 = Except.ok 0 ∧
    (tasksList cexTasksC4).countP (failedClaimPred 1000000) = 1 := by
  have hwf : ∀ t ∈ tasksList cexTasksC4, wellFormedTask t := by
    intro t ht
    simp [tasksList, cexTasksC4] at ht
    subst ht
    exact ⟨⟨"running", rfl⟩, ⟨"error", rfl⟩⟩
  have h1 : countFailedTasksLast24h 1000000 cexTasksC4
      = Except.ok ((tasksList cexTasksC4).countP (failedAmendedPred 1000000)) :=
    countFailedAux_eq 1000000 (tasksList cexTasksC4) hwf
  have hp : failedAmendedPred 1000000 cexTaskC4 = false := by
    show (decide ((1000000 : ℚ) - 24 * 3600 ≤ 996400) && !runningClaimPred cexTaskC4
        && notOkSuccessStr (statusStateRaw cexTaskC4)
        && notOkSuccessStr (pyOr (dictGet cexTaskC4 "exitstatus") (Json.str ""))) = false
    rw [decide_eq_true (by norm_num : (1000000 : ℚ) - 24 * 3600 ≤ 996400)]
    rfl
  have h2 : countFailedTasksLast24h 1000000 cexTasksC4 = Except.ok 0 := by
    rw [h1]
    simp [tasksList, cexTasksC4, List.countP, List.countP.go, hp]
  have h3 : (tasksList cexTasksC4).countP (failedClaimPred 1000000) = 1 := by
    have hp2 : failedClaimPred 1000000 cexTaskC4 = true := by
      show (notOkSuccessStr (statusStateRaw cexTaskC4)
          && notOkSuccessStr (pyOr (dictGet cexTaskC4 "exitstatus") (Json.str ""))
          && decide ((1000000 : ℚ) - 86400 ≤ 996400)) = true
      rw [decide_eq_true (by norm_num : (1000000 : ℚ) - 86400 ≤ 996400)]
      rfl
    simp [tasksList, cexTasksC4, List.countP, List.countP.go, hp2]
  refine ⟨?_, h2, h3⟩
  intro h
  rw [h3, h2] at h
  exact absurd (Except.ok.inj h) (by norm_num)

/-- C4 (amended): countFailedTasksLast24h counts exactly the tasks that are
not classified as running, not successful per the status/state predicate,
whose exitstatus is not ok/success, and whose endtime is present, parseable
and at least now minus 24 hours; in particular the error task with endtime
now-3600 is counted and the one with endtime now-100000 is excluded. -/
theorem claim_C4 :
    (∀ (now : ℚ) (tasks : Json), (∀ t ∈ tasksList tasks, wellFormedTask t) →
      countFailedTasksLast24h now tasks
        = Except.ok ((tasksList tasks).countP (failedAmendedPred now))) ∧
    (∀ now : ℚ, countFailedTasksLast24h now
        (Json.arr [Json.obj [("status", Json.str "error"),
          ("endtime", Json.num (now - 3600)), ("exitstatus", Json.str "error")]])
      = Except.ok 1) ∧
    (∀ now : ℚ, countFailedTasksLast24h now
        (Json.arr [Json.obj [("status", Json.str "error"),
          ("endtime", Json.num (now - 100000)), ("exitstatus", Json.str "error")]])
      = Except.ok 0) := by
  have hgen : ∀ (now : ℚ) (tasks : Json), (∀ t ∈ tasksList tasks, wellFormedTask t) →
      countFailedTasksLast24h now tasks
        = Except.ok ((tasksList tasks).countP (failedAmendedPred now)) :=
    fun now tasks h => countFailedAux_eq now (tasksList tasks) h
  refine ⟨hgen, ?_, ?_⟩
  · intro now
    rw [hgen now _ (by
      intro t ht
      simp [tasksList] at ht
      subst ht
      exact ⟨⟨"error", rfl⟩, ⟨"error", rfl⟩⟩)]
    have hp : failedAmendedPred now [("status", Json.str "error"),
        ("endtime", Json.num (now - 3600)), ("exitstatus", Json.str "error")] = true := by
      show (decide (now - 24 * 3600 ≤ now - 3600)
          && !runningClaimPred [("status", Json.str "error"),
              ("endtime", Json.num (now - 3600)), ("exitstatus", Json.str "error")]
          && notOkSuccessStr (statusStateRaw [("status", Json.str "error"),
              ("endtime", Json.num (now - 3600)), ("exitstatus", Json.str "error")])
          && notOkSuccessStr (pyOr (dictGet [("status", Json.str "error"),
              ("endtime", Json.num (now - 3600)), ("exitstatus", Json.str "error")]
              "exitstatus") (Json.str ""))) = true
      rw [decide_eq_true (by linarith : now - 24 * 3600 ≤ now - 3600)]
      rfl
    simp [tasksList, List.countP, List.countP.go, hp]
  · intro now
    rw [hgen now _ (by
      intro t ht
      simp [tasksList] at ht
      subst ht
      exact ⟨⟨"error", rfl⟩, ⟨"error", rfl⟩⟩)]
    have hp : failedAmendedPred now [("status", Json.str "error"),
        ("endtime", Json.num (now - 100000)), ("exitstatus", Json.str "error")] = false := by
      show (decide (now - 24 * 3600 ≤ now - 100000)
          && !runningClaimPred [("status", Json.str "error"),
              ("endtime", Json.num (now - 100000)), ("exitstatus", Json.str "error")]
          && notOkSuccessStr (statusStateRaw [("status", Json.str "error"),
              ("endtime", Json.num (now - 100000)), ("exitstatus", Json.str "error")])
          && notOkSuccessStr (pyOr (dictGet [("status", Json.str "error"),
              ("endtime", Json.num (now - 100000)), ("exitstatus", Json.str "error")]
              "exitstatus") (Json.str ""))) = false
      rw [decide_eq_false (by intro hc; linarith : ¬(now - 24 * 3600 ≤ now - 100000))]
      rfl
    simp [tasksList, List.countP, List.countP.go, hp]

theorem claim_C4_witness :
    countFailedTasksLast24h 86400
        (Json.arr [Json.obj [("status", Json.str "error"),
          ("endtime", Json.num 86000), ("exitstatus", Json.str "error")]])
      = Except.ok ((tasksList (Json.arr [Json.obj [("status", Json.str "error"),
          ("endtime", Json.num 86000), ("exitstatus", Json.str "error")]])).countP
            (failedAmendedPred 86400)) :=
  claim_C4.1 86400 _ (by
    intro t ht
    simp [tasksList] at ht
    subst ht
    exact ⟨⟨"error", rfl⟩, ⟨"error", rfl⟩⟩)

/-- C9: the running and failed classifications are disjoint: a task the
failed-count loop counts has been positively classified as not running, and
a task with an absent or unparseable endtime is never counted as failed,
whatever its status or exitstatus fields. -/
theorem claim_C9 : ∀ (now : ℚ) (t : List (String × Json)),
    (taskFailedOne (now - 24 * 3600) t = Except.ok true →
      taskIsRunning t = Except.ok false) ∧
    (taskEndtime t = none → taskFailedOne (now - 24 * 3600) t = Except.ok false) := by
  intro now t
  constructor
  · intro h
    unfold taskFailedOne at h
    cases hend : taskEndtime t with
    | none =>
      rw [hend] at h
      exact absurd (Except.ok.inj h) (by simp)
    | some e =>
      rw [hend] at h
      replace h : (if e < now - 24 * 3600 then Except.ok false
          else taskIsRunning t >>= fun running =>
            if running = true then pure false
            else taskIsSuccess t >>= fun succ =>
              if succ = true then pure false
              else pyLowerStr (pyOr (dictGet t "exitstatus") (Json.str "")) >>= fun ex =>
                if ex = "ok" ∨ ex = "success" then pure false else pure true)
          = Except.ok true := h
      by_cases hlt : e < now - 24 * 3600
      · rw [if_pos hlt] at h
        exact absurd (Except.ok.inj h) (by simp)
      · rw [if_neg hlt] at h
        cases hr : taskIsRunning t with
        | error msg =>
          rw [hr, exceptBind_err] at h
          exact Except.noConfusion h
        | ok b =>
          rw [hr, exceptBind_ok] at h
          cases b with
          | true =>
            rw [if_pos rfl] at h
            exact absurd (Except.ok.inj h) (by simp)
          | false => rfl
  · intro h
    unfold taskFailedOne
    rw [h]

/-- The task dict used to witness C9. -/
def taskC9 : List (String × Json) :=
  [("status", Json.str "error"), ("endtime", Json.num 0),
   ("exitstatus", Json.str "error")]

theorem claim_C9_witness : taskIsRunning taskC9 = Except.ok false :=
  (claim_C9 86400 taskC9).1 (by
    rw [taskFailedOne_eq 86400 taskC9 "error" "error" rfl rfl]
    have hp : failedAmendedPred 86400 taskC9 = true := by
      show (decide ((86400 : ℚ) - 24 * 3600 ≤ 0) && !runningClaimPred taskC9
          && notOkSuccessStr (statusStateRaw taskC9)
          && notOkSuccessStr (pyOr (dictGet taskC9 "exitstatus") (Json.str ""))) = true
      rw [decide_eq_true (by norm_num : (86400 : ℚ) - 24 * 3600 ≤ 0)]
      rfl
    rw [hp])

/-! ## Coordinator claims -/

theorem safeGet_ok_of_ok (g : Fetcher) (p : String) (ps : List (String × Json))
    (d v : Json) (h : g p ps = ApiResult.ok v) : safeGet g p ps d = Except.ok v := by
  unfold safeGet
  rw [h]

theorem safeGet_default_of_apiError (g : Fetcher) (p : String)
    (ps : List (String × Json)) (d : Json) (msg : String)
    (h : g p ps = ApiResult.apiError msg) : safeGet g p ps d = Except.ok d := by
  unfold safeGet
  rw [h]

theorem pbsTick_red (node0 : String) (g : Fetcher) (ver st ds ta tr : Json)
    (hver : safeGet g "/version" [] Json.null = Except.ok ver)
    (hst : safeGet g ("/nodes/" ++ (if node0 = "" then "localhost" else node0) ++ "/status")
      [] (Json.obj []) = Except.ok st)
    (hds : safeGet g "/status/datastore-usage" [] (Json.arr []) = Except.ok ds)
    (hta : safeGet g ("/nodes/" ++ (if node0 = "" then "localhost" else node0) ++ "/tasks")
      [("limit", Json.num 200)] (Json.arr []) = Except.ok ta)
    (htr : safeGet g ("/nodes/" ++ (if node0 = "" then "localhost" else node0) ++ "/tasks")
      [("running", Json.str "true"), ("limit", Json.num 200)] (Json.arr []) = Except.ok tr) :
    pbsTick node0 g
      = if (!st.truthy && !ds.truthy && !ta.truthy && !tr.truthy) = true
        then Except.error "PBS: all API calls failed (no data returned)"
        else Except.ok (Json.obj
          [("backend", Json.str "pbs"),
           ("node", Json.str (if node0 = "" then "localhost" else node0)),
           ("display_name", Json.str (displayNamePBS (extractHostnameFromStatus st))),
           ("version", ver),
           ("status", pyOr st (Json.obj [])),
           ("datastores", pyOr ds (Json.arr [])),
           ("tasks", pyOr ta (Json.arr [])),
           ("tasks_running", pyOr tr (Json.arr []))]) := by
  unfold pbsTick
  simp only [hver, hst, hds, hta, htr, exceptBind_ok]
  rfl

/-- C1: a PBS tick fails with the tick-level refresh failure exactly when
the node-status, datastore-usage, full-task-list and running-task-list
fetches all yield an empty/absent result (whatever the /version fetch
returned); when at least one of the four is non-empty the heuristic does
not fire and a snapshot is produced. -/
theorem claim_C1 (node0 : String) (g : Fetcher) (ver st ds ta tr : Json)
    (hver : safeGet g "/version" [] Json.null = Except.ok ver)
    (hst : safeGet g ("/nodes/" ++ (if node0 = "" then "localhost" else node0) ++ "/status")
      [] (Json.obj []) = Except.ok st)
    (hds : safeGet g "/status/datastore-usage" [] (Json.arr []) = Except.ok ds)
    (hta : safeGet g ("/nodes/" ++ (if node0 = "" then "localhost" else node0) ++ "/tasks")
      [("limit", Json.num 200)] (Json.arr []) = Except.ok ta)
    (htr : safeGet g ("/nodes/" ++ (if node0 = "" then "localhost" else node0) ++ "/tasks")
      [("running", Json.str "true"), ("limit", Json.num 200)] (Json.arr []) = Except.ok tr) :
    (st.truthy = false ∧ ds.truthy = false ∧ ta.truthy = false ∧ tr.truthy = false →
      pbsTick node0 g = Except.error "PBS: all API calls failed (no data returned)") ∧
    (st.truthy = true ∨ ds.truthy = true ∨ ta.truthy = true ∨ tr.truthy = true →
      ∃ snap, pbsTick node0 g = Except.ok snap) := by
  rw [pbsTick_red node0 g ver st ds ta tr hver hst hds hta htr]
  constructor
  · rintro ⟨h1, h2, h3, h4⟩
    rw [h1, h2, h3, h4]
    rfl
  · intro hor
    have hc : (!st.truthy && !ds.truthy && !ta.truthy && !tr.truthy) = false := by
      rcases hor with h | h | h | h <;> simp [h]
    rw [hc]
    exact ⟨_, rfl⟩

theorem claim_C1_witness :
    pbsTick "" (fun _ _ => ApiResult.ok Json.null)
      = Except.error "PBS: all API calls failed (no data returned)" :=
  (claim_C1 "" (fun _ _ => ApiResult.ok Json.null)
    Json.null Json.null Json.null Json.null Json.null
    rfl rfl rfl rfl rfl).1 ⟨rfl, rfl, rfl, rfl⟩

theorem pveBody_eq (node : String) (g : Fetcher) (v status vms lxcs trj : Json)
    (vc lc : ℕ × ℕ)
    (h1 : safeGet g ("/nodes/" ++ node ++ "/status") [] (Json.obj []) = Except.ok status)
    (h2 : safeGet g ("/nodes/" ++ node ++ "/qemu") [] (Json.arr []) = Except.ok vms)
    (h3 : listCounts vms = Except.ok vc)
    (h4 : safeGet g ("/nodes/" ++ node ++ "/lxc") [] (Json.arr []) = Except.ok lxcs)
    (h5 : listCounts lxcs = Except.ok lc)
    (h6 : safeGet g ("/nodes/" ++ node ++ "/tasks")
      [("running", Json.str "true"), ("limit", Json.num 200)] (Json.arr []) = Except.ok trj) :
    pveBody node g v = Except.ok (Json.obj
      [("backend", Json.str "pve"),
       ("node", Json.str node),
       ("display_name", Json.str (displayNamePVE node node)),
       ("version", v),
       ("status", pyOr status (Json.obj [])),
       ("counts", Json.obj
         [("vms_total", Json.num vc.1),
          ("vms_running", Json.num vc.2),
          ("lxcs_total", Json.num lc.1),
          ("lxcs_running", Json.num lc.2)]),
       ("tasks_running", pyOr trj (Json.arr []))]) := by
  unfold pveBody
  simp only [h1, h2, h3, h4, h5, h6, exceptBind_ok]
  rfl

theorem pveTick_known_node (node : String) (g : Fetcher) (ver : Json)
    (hnode : node ≠ "")
    (hver : safeGet g "/version" [] Json.null = Except.ok ver) :
    pveTick node g = (node, pveBody node g ver) := by
  unfold pveTick
  rw [hver]
  simp only [if_neg hnode]

/-- C2: on a PVE tick with a known node name, a RemoteError from the
container-list endpoint while all other endpoints succeed still yields a
successful tick whose snapshot carries the default zero container counts,
with every other field populated from the respective fetch; the
endpoint-level error is not surfaced (the tick result is a snapshot, not an
error). -/
theorem claim_C2 (node : String) (g : Fetcher) (emsg : String)
    (ver st vmsJ trJ : Json) (vt vr : ℕ)
    (hnode : node ≠ "")
    (hver : g "/version" [] = ApiResult.ok ver)
    (hst : g ("/nodes/" ++ node ++ "/status") [] = ApiResult.ok st)
    (hq : g ("/nodes/" ++ node ++ "/qemu") [] = ApiResult.ok vmsJ)
    (hqc : listCounts vmsJ = Except.ok (vt, vr))
    (hl : g ("/nodes/" ++ node ++ "/lxc") [] = ApiResult.apiError emsg)
    (htr : g ("/nodes/" ++ node ++ "/tasks")
      [("running", Json.str "true"), ("limit", Json.num 200)] = ApiResult.ok trJ) :
    ∃ snap, pveTick node g = (node, Except.ok snap) ∧
      snapField (snapField snap "counts") "lxcs_total" = Json.num 0 ∧
      snapField (snapField snap "counts") "lxcs_running" = Json.num 0 ∧
      snapField (snapField snap "counts") "vms_total" = Json.num vt ∧
      snapField (snapField snap "counts") "vms_running" = Json.num vr ∧
      snapField snap "status" = pyOr st (Json.obj []) ∧
      snapField snap "version" = ver ∧
      snapField snap "node" = Json.str node ∧
      snapField snap "display_name" = Json.str (displayNamePVE node node) ∧
      snapField snap "tasks_running" = pyOr trJ (Json.arr []) := by
  have hbody := pveBody_eq node g ver st vmsJ (Json.arr []) trJ (vt, vr) (0, 0)
    (safeGet_ok_of_ok g _ [] _ st hst)
    (safeGet_ok_of_ok g _ [] _ vmsJ hq)
    hqc
    (safeGet_default_of_apiError g _ [] (Json.arr []) emsg hl)
    rfl
    (safeGet_ok_of_ok g _ _ _ trJ htr)
  refine ⟨Json.obj
      [("backend", Json.str "pve"),
       ("node", Json.str node),
       ("display_name", Json.str (displayNamePVE node node)),
       ("version", ver),
       ("status", pyOr st (Json.obj [])),
       ("counts", Json.obj
         [("vms_total", Json.num vt),
          ("vms_running", Json.num vr),
          ("lxcs_total", Json.num 0),
          ("lxcs_running", Json.num 0)]),
       ("tasks_running", pyOr trJ (Json.arr []))],
    ?_, rfl, rfl, rfl, rfl, rfl, rfl, rfl, rfl, rfl⟩
  rw [pveTick_known_node node g ver hnode (safeGet_ok_of_ok g _ [] _ ver hver), hbody]
  rfl

/-- A fetcher whose container-list endpoint fails with a transport-level
RemoteError while every other endpoint returns a small status payload. -/
def c2Fetcher : Fetcher := fun path _ =>
  if path = "/nodes/n1/lxc" then ApiResult.apiError "connection error"
  else ApiResult.ok (Json.obj [("cpu", Json.num 1)])

theorem claim_C2_witness :
    ∃ snap, pveTick "n1" c2Fetcher = ("n1", Except.ok snap) ∧
      snapField (snapField snap "counts") "lxcs_total" = Json.num 0 ∧
      snapField (snapField snap "counts") "lxcs_running" = Json.num 0 ∧
      snapField (snapField snap "counts") "vms_total" = Json.num 0 ∧
      snapField (snapField snap "counts") "vms_running" = Json.num 0 ∧
      snapField snap "status" = pyOr (Json.obj [("cpu", Json.num 1)]) (Json.obj []) ∧
      snapField snap "version" = Json.obj [("cpu", Json.num 1)] ∧
      snapField snap "node" = Json.str "n1" ∧
      snapField snap "display_name" = Json.str (displayNamePVE "n1" "n1") ∧
      snapField snap "tasks_running" = pyOr (Json.obj [("cpu", Json.num 1)]) (Json.arr []) :=
  claim_C2 "n1" c2Fetcher "connection error" (Json.obj [("cpu", Json.num 1)])
    (Json.obj [("cpu", Json.num 1)]) (Json.obj [("cpu", Json.num 1)])
    (Json.obj [("cpu", Json.num 1)]) 0 0 (by decide) rfl rfl rfl rfl rfl rfl

theorem pbsTick_ok_inv (node0 : String) (g : Fetcher) (snap : Json)
    (h : pbsTick node0 g = Except.ok snap) :
    ∃ ver st ds ta tr,
      safeGet g "/version" [] Json.null = Except.ok ver ∧
      safeGet g ("/nodes/" ++ (if node0 = "" then "localhost" else node0) ++ "/status")
        [] (Json.obj []) = Except.ok st ∧
      safeGet g "/status/datastore-usage" [] (Json.arr []) = Except.ok ds ∧
      safeGet g ("/nodes/" ++ (if node0 = "" then "localhost" else node0) ++ "/tasks")
        [("limit", Json.num 200)] (Json.arr []) = Except.ok ta ∧
      safeGet g ("/nodes/" ++ (if node0 = "" then "localhost" else node0) ++ "/tasks")
        [("running", Json.str "true"), ("limit", Json.num 200)] (Json.arr []) = Except.ok tr ∧
      snap = Json.obj
        [("backend", Json.str "pbs"),
         ("node", Json.str (if node0 = "" then "localhost" else node0)),
         ("display_name", Json.str (displayNamePBS (extractHostnameFromStatus st))),
         ("version", ver),
         ("status", pyOr st (Json.obj [])),
         ("datastores", pyOr ds (Json.arr [])),
         ("tasks", pyOr ta (Json.arr [])),
         ("tasks_running", pyOr tr (Json.arr []))] := by
  unfold pbsTick at h
  cases hv : safeGet g "/version" [] Json.null with
  | error e =>
    rw [hv, exceptBind_err] at h
    exact Except.noConfusion h
  | ok ver =>
    rw [hv] at h
    simp only [exceptBind_ok] at h
    cases hst : safeGet g ("/nodes/" ++ (if node0 = "" then "localhost" else node0) ++ "/status")
        [] (Json.obj []) with
    | error e =>
      rw [hst, exceptBind_err] at h
      exact Except.noConfusion h
    | ok st =>
      rw [hst] at h
      simp only [exceptBind_ok] at h
      cases hds : safeGet g "/status/datastore-usage" [] (Json.arr []) with
      | error e =>
        rw [hds, exceptBind_err] at h
        exact Except.noConfusion h
      | ok ds =>
        rw [hds] at h
        simp only [exceptBind_ok] at h
        cases hta : safeGet g ("/nodes/" ++ (if node0 = "" then "localhost" else node0)
            ++ "/tasks") [("limit", Json.num 200)] (Json.arr []) with
        | error e =>
          rw [hta, exceptBind_err] at h
          exact Except.noConfusion h
        | ok ta =>
          rw [hta] at h
          simp only [exceptBind_ok] at h
          cases htr : safeGet g ("/nodes/" ++ (if node0 = "" then "localhost" else node0)
              ++ "/tasks") [("running", Json.str "true"), ("limit", Json.num 200)]
              (Json.arr []) with
          | error e =>
            rw [htr, exceptBind_err] at h
            exact Except.noConfusion h
          | ok tr =>
            rw [htr] at h
            simp only [exceptBind_ok] at h
            by_cases hc : (!st.truthy && !ds.truthy && !ta.truthy && !tr.truthy) = true
            · rw [if_pos hc] at h
              exact Except.noConfusion h
            · rw [if_neg hc] at h
              exact ⟨ver, st, ds, ta, tr, rfl, rfl, rfl, rfl, rfl, (Except.ok.inj h).symm⟩

/-- C6: the snapshot produced by a tick is built wholly from that tick's
endpoint results: the post-tick coordinator state does not depend on the
previously held snapshot, and an endpoint failure inside a successful tick
yields the default empty value in the corresponding snapshot field (shown
for the PBS datastore-usage endpoint), never the previous value. -/
theorem claim_C6 :
    (∀ (node : String) (d d2 : Option Json) (g : Fetcher) (snap : Json),
      (pveTick node g).2 = Except.ok snap →
      stepPVE ⟨node, d⟩ g = ⟨(pveTick node g).1, some snap⟩ ∧
      stepPVE ⟨node, d2⟩ g = ⟨(pveTick node g).1, some snap⟩) ∧
    (∀ (node : String) (d d2 : Option Json) (g : Fetcher) (snap : Json),
      pbsTick node g = Except.ok snap →
      stepPBS ⟨node, d⟩ g = ⟨node, some snap⟩ ∧ stepPBS ⟨node, d2⟩ g = ⟨node, some snap⟩) ∧
    (∀ (node0 : String) (g : Fetcher) (emsg : String) (snap : Json),
      g "/status/datastore-usage" [] = ApiResult.apiError emsg →
      pbsTick node0 g = Except.ok snap →
      snapField snap "datastores" = Json.arr []) := by
  refine ⟨?_, ?_, ?_⟩
  · intro node d d2 g snap h
    cases hp : pveTick node g with
    | mk n r =>
      rw [hp] at h
      replace h : r = Except.ok snap := h
      subst h
      constructor <;> (unfold stepPVE; rw [hp])
  · intro node d d2 g snap h
    constructor <;> (unfold stepPBS; rw [h])
  · intro node0 g emsg snap hds h
    obtain ⟨ver, st, ds, ta, tr, hv, hst, hds2, hta, htr, hsnap⟩ :=
      pbsTick_ok_inv node0 g snap h
    have hds3 : safeGet g "/status/datastore-usage" [] (Json.arr [])
        = Except.ok (Json.arr []) :=
      safeGet_default_of_apiError g _ [] (Json.arr []) emsg hds
    have hdseq : ds = Json.arr [] := Except.ok.inj (hds2.symm.trans hds3)
    subst hdseq
    rw [hsnap]
    rfl

/-- A fetcher whose datastore-usage endpoint fails while the rest return a
small status payload. -/
def c6Fetcher : Fetcher := fun p _ =>
  if p = "/status/datastore-usage" then ApiResult.apiError "dsfail"
  else ApiResult.ok (Json.obj [("cpu", Json.num 1)])

theorem claim_C6_witness :
    ∃ snap, pbsTick "" c6Fetcher = Except.ok snap ∧
      snapField snap "datastores" = Json.arr [] := by
  have hred := pbsTick_red "" c6Fetcher (Json.obj [("cpu", Json.num 1)])
    (Json.obj [("cpu", Json.num 1)]) (Json.arr []) (Json.obj [("cpu", Json.num 1)])
    (Json.obj [("cpu", Json.num 1)]) rfl rfl
    (safeGet_default_of_apiError c6Fetcher _ [] (Json.arr []) "dsfail" rfl) rfl rfl
  have heq : pbsTick "" c6Fetcher = Except.ok (Json.obj
      [("backend", Json.str "pbs"),
       ("node", Json.str "localhost"),
       ("display_name", Json.str (displayNamePBS (extractHostnameFromStatus
         (Json.obj [("cpu", Json.num 1)])))),
       ("version", Json.obj [("cpu", Json.num 1)]),
       ("status", pyOr (Json.obj [("cpu", Json.num 1)]) (Json.obj [])),
       ("datastores", pyOr (Json.arr []) (Json.arr [])),
       ("tasks", pyOr (Json.obj [("cpu", Json.num 1)]) (Json.arr [])),
       ("tasks_running", pyOr (Json.obj [("cpu", Json.num 1)]) (Json.arr []))]) := by
    rw [hred]
    rfl
  exact ⟨_, heq, claim_C6.2.2 "" c6Fetcher "dsfail" _ rfl heq⟩

theorem pveBody_ok_inv (node : String) (g : Fetcher) (v snap : Json)
    (h : pveBody node g v = Except.ok snap) :
    ∃ (status vms lxcs trj : Json) (vc lc : ℕ × ℕ),
      snap = Json.obj
        [("backend", Json.str "pve"),
         ("node", Json.str node),
         ("display_name", Json.str (displayNamePVE node node)),
         ("version", v),
         ("status", pyOr status (Json.obj [])),
         ("counts", Json.obj
           [("vms_total", Json.num vc.1),
            ("vms_running", Json.num vc.2),
            ("lxcs_total", Json.num lc.1),
            ("lxcs_running", Json.num lc.2)]),
         ("tasks_running", pyOr trj (Json.arr []))] := by
  unfold pveBody at h
  cases h1 : safeGet g ("/nodes/" ++ node ++ "/status") [] (Json.obj []) with
  | error e =>
    rw [h1, exceptBind_err] at h
    exact Except.noConfusion h
  | ok status =>
    rw [h1] at h
    simp only [exceptBind_ok] at h
    cases h2 : safeGet g ("/nodes/" ++ node ++ "/qemu") [] (Json.arr []) with
    | error e =>
      rw [h2, exceptBind_err] at h
      exact Except.noConfusion h
    | ok vms =>
      rw [h2] at h
      simp only [exceptBind_ok] at h
      cases h3 : listCounts vms with
      | error e =>
        rw [h3, exceptBind_err] at h
        exact Except.noConfusion h
      | ok vc =>
        rw [h3] at h
        simp only [exceptBind_ok] at h
        cases h4 : safeGet g ("/nodes/" ++ node ++ "/lxc") [] (Json.arr []) with
        | error e =>
          rw [h4, exceptBind_err] at h
          exact Except.noConfusion h
        | ok lxcs =>
          rw [h4] at h
          simp only [exceptBind_ok] at h
          cases h5 : listCounts lxcs with
          | error e =>
            rw [h5, exceptBind_err] at h
            exact Except.noConfusion h
          | ok lc =>
            rw [h5] at h
            simp only [exceptBind_ok] at h
            cases h6 : safeGet g ("/nodes/" ++ node ++ "/tasks")
                [("running", Json.str "true"), ("limit", Json.num 200)] (Json.arr []) with
            | error e =>
              rw [h6, exceptBind_err] at h
              exact Except.noConfusion h
            | ok trj =>
              rw [h6] at h
              simp only [exceptBind_ok] at h
              exact ⟨status, vms, lxcs, trj, vc, lc, (Except.ok.inj h).symm⟩

theorem pveTick_adopt (g : Fetcher) (ver nodes : Json)
    (hv : safeGet g "/version" [] Json.null = Except.ok ver)
    (hn : safeGet g "/nodes" [] (Json.arr []) = Except.ok nodes) :
    pveTick "" g
      = match resolveNodeName nodes with
        | Except.error e => ("", Except.error e)
        | Except.ok node =>
          if node = "" then (node, Except.error "Could not determine PVE node name")
          else (node, pveBody node g ver) := by
  unfold pveTick
  rw [hv, hn]
  rfl

theorem resolveNodeName_first (kvs : List (String × Json)) (rest : List Json)
    (n : String) (hfield : dictGet kvs "node" = Json.str n) (hne : n ≠ "") :
    resolveNodeName (Json.arr (Json.obj kvs :: rest)) = Except.ok n := by
  unfold resolveNodeName
  rw [show (Json.arr (Json.obj kvs :: rest)).truthy = true from rfl, if_pos rfl]
  show (match pyOr (dictGet kvs "node") (Json.str "") with
        | Json.str s => Except.ok s
        | _ => Except.error "TypeError") = Except.ok n
  rw [hfield]
  have ht : (Json.str n).truthy = true := decide_eq_true hne
  rw [show pyOr (Json.str n) (Json.str "") = Json.str n from by
    unfold pyOr
    rw [ht, if_pos rfl]]

theorem safeGet_congr (g g2 : Fetcher) (p : String) (ps : List (String × Json))
    (d : Json) (h : g p ps = g2 p ps) : safeGet g p ps d = safeGet g2 p ps d := by
  unfold safeGet
  rw [h]

/-- C10: when a PVE connection has no configured node name, the name
adopted from the first entry of the /nodes response becomes the coordinator
state; every tick that starts with a known (nonempty) node name is
independent of the /nodes endpoint, keeps that node name as state, and
publishes it in the snapshot node field. -/
theorem claim_C10 :
    (∀ (g : Fetcher) (ver : Json) (kvs : List (String × Json)) (rest : List Json)
        (n : String),
      safeGet g "/version" [] Json.null = Except.ok ver →
      safeGet g "/nodes" [] (Json.arr []) = Except.ok (Json.arr (Json.obj kvs :: rest)) →
      dictGet kvs "node" = Json.str n → n ≠ "" →
      (pveTick "" g).1 = n) ∧
    (∀ (node : String) (g g2 : Fetcher), node ≠ "" →
      (∀ (p : String) (params : List (String × Json)), p ≠ "/nodes" → g p params = g2 p params) →
      pveTick node g = pveTick node g2 ∧ (pveTick node g).1 = node ∧
      (∀ snap, (pveTick node g).2 = Except.ok snap →
        snapField snap "node" = Json.str node)) := by
  constructor
  · intro g ver kvs rest n hv hn hfield hne
    rw [pveTick_adopt g ver (Json.arr (Json.obj kvs :: rest)) hv hn,
      resolveNodeName_first kvs rest n hfield hne]
    show (if n = "" then (n, (Except.error "Could not determine PVE node name" : Except String Json))
        else (n, pveBody n g ver)).1 = n
    rw [if_neg hne]
  · intro node g g2 hnode hagree
    have h1 : g "/version" [] = g2 "/version" [] := hagree _ _ (by decide)
    have hpne : ∀ tail : String, ("/nodes/" ++ node ++ tail) ≠ "/nodes" := by
      intro tail heq
      have hlen := congrArg String.length heq
      rw [String.length_append, String.length_append] at hlen
      rw [show ("/nodes/" : String).length = 7 from rfl,
        show ("/nodes" : String).length = 6 from rfl] at hlen
      omega
    have h2 := hagree _ ([] : List (String × Json)) (hpne "/status")
    have h3 := hagree _ ([] : List (String × Json)) (hpne "/qemu")
    have h4 := hagree _ ([] : List (String × Json)) (hpne "/lxc")
    have h5 := hagree _ [("running", Json.str "true"), ("limit", Json.num 200)]
      (hpne "/tasks")
    have hbody : ∀ v, pveBody node g v = pveBody node g2 v := by
      intro v
      unfold pveBody
      rw [safeGet_congr g g2 _ _ _ h2, safeGet_congr g g2 _ _ _ h3,
        safeGet_congr g g2 _ _ _ h4, safeGet_congr g g2 _ _ _ h5]
    have hredg : ∀ gg : Fetcher, pveTick node gg = (node,
        match safeGet gg "/version" [] Json.null with
        | Except.error e => Except.error e
        | Except.ok version => pveBody node gg version) := by
      intro gg
      unfold pveTick
      cases hvv : safeGet gg "/version" [] Json.null with
      | error e => rfl
      | ok v =>
        simp only [if_neg hnode]
    refine ⟨?_, ?_, ?_⟩
    · rw [hredg g, hredg g2, safeGet_congr g g2 _ _ _ h1]
      cases hvv : safeGet g2 "/version" [] Json.null with
      | error e => rfl
      | ok v =>
        show (node, pveBody node g v) = (node, pveBody node g2 v)
        rw [hbody v]
    · rw [hredg g]
    · intro snap hsnap
      rw [hredg g] at hsnap
      replace hsnap : (match safeGet g "/version" [] Json.null with
          | Except.error e => (Except.error e : Except String Json)
          | Except.ok version => pveBody node g version) = Except.ok snap := hsnap
      cases hvv : safeGet g "/version" [] Json.null with
      | error e =>
        rw [hvv] at hsnap
        exact Except.noConfusion
          (show (Except.error e : Except String Json) = Except.ok snap from hsnap)
      | ok v =>
        rw [hvv] at hsnap
        replace hsnap : pveBody node g v = Except.ok snap := hsnap
        obtain ⟨status, vms, lxcs, trj, vc, lc, hsnapeq⟩ :=
          pveBody_ok_inv node g v snap hsnap
        rw [hsnapeq]
        rfl

/-- A fetcher whose /nodes endpoint lists one node named pve1. -/
def c10Fetcher : Fetcher := fun p _ =>
  if p = "/nodes" then ApiResult.ok (Json.arr [Json.obj [("node", Json.str "pve1")]])
  else ApiResult.ok Json.null

theorem claim_C10_witness : (pveTick "" c10Fetcher).1 = "pve1" :=
  claim_C10.1 c10Fetcher Json.null [("node", Json.str "pve1")] [] "pve1"
    rfl rfl rfl (by decide)
